import Mathlib

/-!
Verification of the faxSim visual-degradation pipeline (Node.js sources under
src/faxSim and src/unnamed) against its natural-language specification.

The JavaScript sources are shallowly embedded:
  * file-system state is a finite set of paths (`Finset String`);
  * every `Math.random()` draw is an explicit rational parameter in [0,1);
  * ImageMagick invocations are modelled by the data they are given: the
    MVG draw scripts are a list of commands (`MVGCmd`), and the effect of an
    argument list on image dimensions is given by `runDims`, where operations
    whose output size is decided by the external engine (distort, crop,
    resize) are over-approximated by an arbitrary oracle and `-extent WxH`
    sets the canvas to exactly WxH;
  * each effect module returns an `EffectResult` recording the surviving
    files, the returned handle, the ordered lists of paths written and
    deleted, and the output image dimensions.
-/

/-! ### Orchestrator stage gates (src/faxSim/faxSim.js, lines 142-186)

`currentDebug` equals `isDebugRun` inside the per-document loop (line 130).
`dbgLog` and `dbgSnap` emit exactly when `currentDebug` is true (lines
112-120).  A stage block computes
  applyX  = cfg.applyX && (!isDebugRun || !debugSkip.includes(key))
  percX   = isDebugRun ? 1 : cfg.xBatchPerc
and runs the transform (plus its log and snapshot) only when
`applyX && Math.random() < percX`.
-/

/-- Outcome of one orchestrator stage block for one document: whether the
stage transform executed, and whether its debug snapshot / debug log line
were emitted. -/
structure StageOutcome where
  executed : Bool
  snapshotEmitted : Bool
  logEmitted : Bool
  deriving DecidableEq, Repr

/-- Warp stage gate, from src/faxSim/faxSim.js lines 142-155.
`excluded` is the value of debugSkip.includes('warp'). -/
def warpStage (applyWarpCfg isDebugRun excluded : Bool)
    (warpBatchPerc draw : ℚ) : StageOutcome :=
  let applyWarp := applyWarpCfg && (!isDebugRun || !excluded)
  let warpPerc : ℚ := if isDebugRun then 1 else warpBatchPerc
  if applyWarp ∧ draw < warpPerc then
    { executed := true, snapshotEmitted := isDebugRun, logEmitted := isDebugRun }
  else
    { executed := false, snapshotEmitted := false, logEmitted := false }

/-- Rotate stage gate, from src/faxSim/faxSim.js lines 157-165.
`excluded` is the value of debugSkip.includes('rotate'). -/
def rotateStage (applyRotateCfg isDebugRun excluded : Bool)
    (rotateBatchPerc draw : ℚ) : StageOutcome :=
  let applyRotate := applyRotateCfg && (!isDebugRun || !excluded)
  let rotatePerc : ℚ := if isDebugRun then 1 else rotateBatchPerc
  if applyRotate ∧ draw < rotatePerc then
    { executed := true, snapshotEmitted := isDebugRun, logEmitted := isDebugRun }
  else
    { executed := false, snapshotEmitted := false, logEmitted := false }

/-! ### Debug flag lifecycle (src/faxSim/faxSim.js, lines 100-130 and 395-399)

Per document: currentDebug = DEBUG_PIPELINE && isFirstPdf at the top of the
loop body; after the document completes, if isFirstPdf then both isFirstPdf
and currentDebug are set to false.
-/

/-- One iteration of the per-document loop as far as the debug flags are
concerned: returns the currentDebug value used for this document and the
isFirstPdf value passed to the next iteration. -/
def batchStep (debugPipeline isFirst : Bool) : Bool × Bool :=
  let currentDebug := debugPipeline && isFirst
  let isFirstNext := if isFirst then false else isFirst
  (currentDebug, isFirstNext)

/-- The sequence of currentDebug values over n processed documents,
starting from a given isFirstPdf state. -/
def batchDebugFlags (debugPipeline : Bool) : Bool → ℕ → List Bool
  | _, 0 => []
  | isFirst, n + 1 =>
    (batchStep debugPipeline isFirst).1 ::
      batchDebugFlags debugPipeline (batchStep debugPipeline isFirst).2 n

/-- dbgSnap (src/faxSim/faxSim.js lines 115-120) copies a snapshot exactly
when currentDebug is true. -/
def dbgSnapEmits (currentDebug : Bool) : Bool := currentDebug

/-- dbgLog (src/faxSim/faxSim.js lines 112-114) prints a debug line exactly
when currentDebug is true. -/
def dbgLogEmits (currentDebug : Bool) : Bool := currentDebug

lemma batchDebugFlags_false (dbg : Bool) (n : ℕ) :
    batchDebugFlags dbg false n = List.replicate n false := by
  induction n with
  | zero => rfl
  | succ n ih =>
    simp [batchDebugFlags, batchStep, ih, List.replicate]

/-! ### MVG draw scripts

Both dropout (src/faxSim/faxSim_effect_dropout.js, createMVG) and the white
noise effect (src/unnamed/part_003, createSpeckleMVG) build an MVG script
line by line and hand it to the engine. The script is modelled as the list
of its commands.
-/

/-- One MVG command line, as emitted by createMVG / createSpeckleMVG. -/
inductive MVGCmd where
  | push : MVGCmd
  | pop : MVGCmd
  | viewbox (w h : ℕ) : MVGCmd
  | fill (color : String) : MVGCmd
  | stroke (s : String) : MVGCmd
  | rectangle (x1 y1 x2 y2 : ℤ) : MVGCmd
  | point (x y : ℤ) : MVGCmd
  deriving DecidableEq, Repr

/-- Recognizes a single-pixel point mark in an MVG script. -/
def MVGCmd.isPoint : MVGCmd → Bool
  | .point _ _ => true
  | _ => false

/-- Recognizes an axis-aligned rectangle block in an MVG script. -/
def MVGCmd.isRectangle : MVGCmd → Bool
  | .rectangle _ _ _ _ => true
  | _ => false

/-- Block size used by dropout's createMVG (line 65):
blockSize = dropoutSize < 1 ? 1 : Math.floor(dropoutSize). -/
def dropoutBlockSize (dropoutSize : ℚ) : ℤ :=
  if dropoutSize < 1 then 1 else ⌊dropoutSize⌋

/-- Block count used by dropout's createMVG (lines 67-69):
count = Math.floor((w*h * dropoutAmount) / blockArea). -/
def dropoutCount (w h : ℕ) (dropoutAmount dropoutSize : ℚ) : ℤ :=
  ⌊((w * h : ℕ) : ℚ) * dropoutAmount /
    ((dropoutBlockSize dropoutSize * dropoutBlockSize dropoutSize : ℤ) : ℚ)⌋

/-- createMVG from src/faxSim/faxSim_effect_dropout.js lines 63-99. `draws`
supplies the Math.random() value for each coordinate: block i uses
draws (2*i) for x and draws (2*i+1) for y. Returns none when no blocks are
needed (count < 1), in which case no .mvg file is written. -/
def createMVG (w h : ℕ) (dropoutAmount dropoutSize : ℚ)
    (draws : ℕ → ℚ) : Option (List MVGCmd) :=
  let blockSize := dropoutBlockSize dropoutSize
  let count := dropoutCount w h dropoutAmount dropoutSize
  if count < 1 then none
  else
    some ([MVGCmd.push, MVGCmd.viewbox w h,
           MVGCmd.fill "white", MVGCmd.stroke "none"] ++
      ((List.range count.toNat).map fun i =>
        let x := ⌊draws (2 * i) * ((w : ℚ) - (blockSize : ℚ))⌋
        let y := ⌊draws (2 * i + 1) * ((h : ℚ) - (blockSize : ℚ))⌋
        MVGCmd.rectangle x y (x + blockSize - 1) (y + blockSize - 1)) ++
      [MVGCmd.pop])

/-- Point count used by createSpeckleMVG (src/unnamed/part_003 lines 16-17):
count = Math.floor(w*h * density). -/
def speckleCount (w h : ℕ) (density : ℚ) : ℤ :=
  ⌊((w * h : ℕ) : ℚ) * density⌋

/-- createSpeckleMVG from src/unnamed/part_003 lines 15-37. Mark i uses
draws (2*i) for x and draws (2*i+1) for y. Returns none when count < 1. -/
def createSpeckleMVG (w h : ℕ) (density : ℚ) (color : String)
    (draws : ℕ → ℚ) : Option (List MVGCmd) :=
  let count := speckleCount w h density
  if count < 1 then none
  else
    some ([MVGCmd.push, MVGCmd.viewbox w h,
           MVGCmd.fill color, MVGCmd.stroke "none"] ++
      ((List.range count.toNat).map fun i =>
        MVGCmd.point ⌊draws (2 * i) * (w : ℚ)⌋ ⌊draws (2 * i + 1) * (h : ℚ)⌋) ++
      [MVGCmd.pop])

/-! ### Dimension semantics of ImageMagick argument lists

Only the operations that decide output canvas size are tracked.
`-extent WxH` yields exactly a WxH canvas; operations whose output size is
computed by the external engine (-distort, -crop, -resize) are
over-approximated by an oracle indexed by their position, so every theorem
below holds for every possible engine behaviour.
-/

/-- Dimension-relevant ImageMagick operation. -/
inductive DimOp where
  | extent (w h : ℕ) : DimOp
  | free : DimOp
  deriving DecidableEq, Repr

/-- Runs a list of dimension operations from a starting size; the oracle
gives the (arbitrary) result of each engine-decided operation. -/
def runDims (oracle : ℕ → ℕ × ℕ → ℕ × ℕ) : List DimOp → ℕ → ℕ × ℕ → ℕ × ℕ
  | [], _, d => d
  | DimOp.extent w h :: ops, i, _ => runDims oracle ops (i + 1) (w, h)
  | DimOp.free :: ops, i, d => runDims oracle ops (i + 1) (oracle i d)

/-- Argument list of the rotate transform (faxSim_effect_rotate.js lines
53-65): -distort SRT angle (engine-decided), then -gravity center
-extent WxH with the dimensions read from the input image. -/
def rotateDimOps (w h : ℕ) : List DimOp :=
  [DimOp.free, DimOp.extent w h]

/-- Dimension pipeline of the warp transform (faxSim_effect_warp.js lines
66-108) across both engine invocations: -extent pw x ph (pad), -distort
Shepards (engine-decided), then -crop bbox, -resize TW2xTH2 (both
engine-decided) and the final -gravity center -extent WxH. -/
def warpDimOps (pw ph w h : ℕ) : List DimOp :=
  [DimOp.extent pw ph, DimOp.free, DimOp.free, DimOp.free, DimOp.extent w h]

/-! ### Effect module contract

Each effect receives the current handle `cur`, its base name, the temp
directory and its parameters, together with the explicit random draws, the
dimensions (w, h) that the identify call reads from `cur`, and the
file-system state `fs`. It returns the new file-system state, the returned
handle, the ordered list of paths written, the ordered list of paths
deleted, and the output image dimensions.
-/

/-- Result of one effect module invocation. -/
structure EffectResult where
  fs : Finset String
  out : String
  wrote : List String
  deleted : List String
  dims : ℕ × ℕ
  deriving DecidableEq

/-- Unchanged result: the input handle is returned, nothing is written or
deleted (the skip paths of the effect modules). -/
def skipResult (fs : Finset String) (cur : String) (w h : ℕ) : EffectResult :=
  { fs := fs, out := cur, wrote := [], deleted := [], dims := (w, h) }

/-- applyRotateEffect from src/faxSim/faxSim_effect_rotate.js lines 21-70.
Skips when !applyRotate || gateDraw > rotateBatchPerc; otherwise reads
(w, h) from cur, rotates by an angle in [rotateMin, rotateMax] chosen by
angleDraw, writes name_rotated.png with a trailing -extent WxH, and then
unlinks cur. -/
def applyRotateEffect (fs : Finset String) (cur name tmpDir : String)
    (applyRotate : Bool) (rotateBatchPerc rotateMin rotateMax : ℚ)
    (gateDraw angleDraw : ℚ) (w h : ℕ)
    (oracle : ℕ → ℕ × ℕ → ℕ × ℕ) : EffectResult :=
  if ¬applyRotate ∨ gateDraw > rotateBatchPerc then skipResult fs cur w h
  else
    let _angle := rotateMin + angleDraw * (rotateMax - rotateMin)
    let outPath := tmpDir ++ "/" ++ name ++ "_rotated.png"
    { fs := ((insert outPath fs).erase cur)
      out := outPath
      wrote := [outPath]
      deleted := [cur]
      dims := runDims oracle (rotateDimOps w h) 0 (w, h) }

/-- Exact ceiling square root of a natural number, the value of
Math.ceil(Math.hypot(w, h)) on integer inputs. -/
def ceilSqrt (n : ℕ) : ℕ :=
  if Nat.sqrt n * Nat.sqrt n = n then Nat.sqrt n else Nat.sqrt n + 1

/-- applyWarpEffect from src/faxSim/faxSim_effect_warp.js lines 26-114.
Skips when !applyWarp || gateDraw > warpBatchPerc; otherwise clamps the
corner offset, pads by the diagonal, warps into name_warp_pad.png,
crops/resizes/centers into name_warp.png, then unlinks cur and the pad
file. The engine-decided bbox and resize sizes are absorbed by the
dimension oracle. -/
def applyWarpEffect (fs : Finset String) (cur name tmpDir : String)
    (applyWarp : Bool) (warpBatchPerc warpOffsetPx warpFinalScale : ℚ)
    (gateDraw : ℚ) (w h : ℕ)
    (oracle : ℕ → ℕ × ℕ → ℕ × ℕ) : EffectResult :=
  if ¬applyWarp ∨ gateDraw > warpBatchPerc then skipResult fs cur w h
  else
    let limit : ℚ := (min w h : ℕ) / 2 - 1
    let _off : ℚ := max (-limit) (min limit warpOffsetPx)
    let _finalScale := warpFinalScale
    let diag := ceilSqrt (w * w + h * h)
    let pw := w + 2 * diag
    let ph := h + 2 * diag
    let padPath := tmpDir ++ "/" ++ name ++ "_warp_pad.png"
    let outPath := tmpDir ++ "/" ++ name ++ "_warp.png"
    { fs := ((((insert outPath (insert padPath fs))).erase cur).erase padPath)
      out := outPath
      wrote := [padPath, outPath]
      deleted := [cur, padPath]
      dims := runDims oracle (warpDimOps pw ph w h) 0 (w, h) }

/-- applyDropoutEffect from src/faxSim/faxSim_effect_dropout.js lines
116-149. Skips when dropoutBatchPerc < 1 && gateDraw > dropoutBatchPerc;
otherwise builds the MVG script; if createMVG yields none the input handle
is returned untouched, else the script file mvgPath and name_rb.png are
written and cur and mvgPath are unlinked. -/
def applyDropoutEffect (fs : Finset String) (cur name tmpDir : String)
    (dropoutAmount dropoutSize dropoutBatchPerc : ℚ)
    (gateDraw : ℚ) (draws : ℕ → ℚ) (w h : ℕ)
    (mvgPath : String) : EffectResult :=
  if dropoutBatchPerc < 1 ∧ gateDraw > dropoutBatchPerc then skipResult fs cur w h
  else
    match createMVG w h dropoutAmount dropoutSize draws with
    | none => skipResult fs cur w h
    | some _script =>
      let outPath := tmpDir ++ "/" ++ name ++ "_rb.png"
      { fs := ((((insert outPath (insert mvgPath fs))).erase cur).erase mvgPath)
        out := outPath
        wrote := [mvgPath, outPath]
        deleted := [cur, mvgPath]
        dims := (w, h) }

/-- applyNoiseWEffect from src/unnamed/part_003 lines 39-53. Skips when
batchPerc < 1 && gateDraw > batchPerc; otherwise builds the speckle MVG; if
createSpeckleMVG yields none the input handle is returned untouched, else
mvgPath and name_noiseW.png are written and cur and mvgPath are
unlinked. -/
def applyNoiseWEffect (fs : Finset String) (cur name tmpDir : String)
    (batchPerc density : ℚ) (gateDraw : ℚ) (draws : ℕ → ℚ) (w h : ℕ)
    (mvgPath : String) : EffectResult :=
  if batchPerc < 1 ∧ gateDraw > batchPerc then skipResult fs cur w h
  else
    match createSpeckleMVG w h density "white" draws with
    | none => skipResult fs cur w h
    | some _script =>
      let outPath := tmpDir ++ "/" ++ name ++ "_noiseW.png"
      { fs := ((((insert outPath (insert mvgPath fs))).erase cur).erase mvgPath)
        out := outPath
        wrote := [mvgPath, outPath]
        deleted := [cur, mvgPath]
        dims := (w, h) }

/-- applyTileshiftEffect from src/unnamed/part_002 lines 53-107, at the
file-system level. Skips when batchPerc < 1 && gateDraw > batchPerc;
otherwise composites the shifted tiles into name_tiles.png and unlinks cur.
The per-tile geometry is modelled by tilePaste below. -/
def applyTileshiftEffect (fs : Finset String) (cur name tmpDir : String)
    (batchPerc : ℚ) (gateDraw : ℚ) (w h : ℕ) : EffectResult :=
  if batchPerc < 1 ∧ gateDraw > batchPerc then skipResult fs cur w h
  else
    let outPath := tmpDir ++ "/" ++ name ++ "_tiles.png"
    { fs := ((insert outPath fs).erase cur)
      out := outPath
      wrote := [outPath]
      deleted := [cur]
      dims := (w, h) }

/-- applyRasterEffect from src/unnamed/part_000. Skips when
batchPerc < 1 && gateDraw > batchPerc; otherwise writes name_raster.png and
unlinks cur. -/
def applyRasterEffect (fs : Finset String) (cur name tmpDir : String)
    (batchPerc : ℚ) (gateDraw : ℚ) (w h : ℕ) : EffectResult :=
  if batchPerc < 1 ∧ gateDraw > batchPerc then skipResult fs cur w h
  else
    let outPath := tmpDir ++ "/" ++ name ++ "_raster.png"
    { fs := ((insert outPath fs).erase cur)
      out := outPath
      wrote := [outPath]
      deleted := [cur]
      dims := (w, h) }

/-- applyStripesWEffect from src/unnamed/part_001 lines 31-135, at the
file-system level. The module performs no batch gating of its own (the
header notes batchPerc is "checked by caller" and the body never reads it):
it always composites the overlay and overwrites curPath in place
(fs.promises.writeFile at line 133), returning curPath itself. Nothing is
unlinked. -/
def applyStripesWEffect (fs : Finset String) (curPath : String)
    (batchPerc : ℚ) (w h : ℕ) : EffectResult :=
  let _ := batchPerc
  { fs := insert curPath fs
    out := curPath
    wrote := [curPath]
    deleted := []
    dims := (w, h) }

/-! ### White-stripes masks (src/unnamed/part_001)

Buffers are modelled as functions from the pixel index to the byte value.
-/

/-- Re-threshold of the blurred noise field, src/unnamed/part_001 lines
85-90: noiseMask[i] = blurred[i] > 128 ? 255 : 0. -/
def noiseMask (blurred : ℕ → ℕ) (i : ℕ) : ℕ :=
  if blurred i > 128 then 255 else 0

/-- Mask conjunction, src/unnamed/part_001 lines 92-96:
finalMask[i] = (stripeMask[i] === 255 && noiseMask[i] === 255) ? 255 : 0. -/
def finalMask (stripeMask nMask : ℕ → ℕ) (i : ℕ) : ℕ :=
  if stripeMask i = 255 ∧ nMask i = 255 then 255 else 0

/-- Alpha channel of the solid-white RGBA overlay, src/unnamed/part_001
lines 113-121: overlay[4*i+3] = finalMask[i] (the RGB channels are 255). -/
def overlayAlpha (fMask : ℕ → ℕ) (i : ℕ) : ℕ := fMask i

/-! ### Tile-shift per-tile geometry (src/unnamed/part_002, lines 47-99) -/

/-- randInt from src/unnamed/part_002 lines 47-49:
Math.floor(d * (max - min + 1)) + min, with d the Math.random() draw. -/
def randInt (lo hi : ℤ) (d : ℚ) : ℤ :=
  ⌊d * ((hi : ℚ) - (lo : ℚ) + 1)⌋ + lo

/-- One iteration of the tile loop in applyTileshiftEffect
(src/unnamed/part_002 lines 77-99): returns the clamped paste position and
the tile size (px, py, ts). dE, dX, dY, dOX, dOY are the five Math.random()
draws in source order. -/
def tilePaste (w h tilesSize tilesVariation tilesOffsetX tilesOffsetY
    offsetVariation : ℤ) (dE dX dY dOX dOY : ℚ) : ℤ × ℤ × ℤ :=
  let extra := randInt 0 tilesVariation dE
  let ts := tilesSize + extra
  let x := randInt 0 (w - ts) dX
  let y := randInt 0 (h - ts) dY
  let dx := tilesOffsetX + randInt 0 offsetVariation dOX
  let dy := tilesOffsetY + randInt 0 offsetVariation dOY
  let px0 := x + dx
  let py0 := y + dy
  let px := if px0 + ts > w then w - ts else px0
  let py := if py0 + ts > h then h - ts else py0
  (px, py, ts)

lemma randInt_nonneg {hi : ℤ} {d : ℚ} (hhi : 0 ≤ hi) (hd : 0 ≤ d) :
    0 ≤ randInt 0 hi d := by
  have hq : (0 : ℚ) ≤ (hi : ℚ) := by exact_mod_cast hhi
  have h1 : (0 : ℚ) ≤ d * ((hi : ℚ) - ((0 : ℤ) : ℚ) + 1) := by
    apply mul_nonneg hd
    push_cast
    linarith
  simpa [randInt] using Int.floor_nonneg.mpr h1

lemma randInt_le {hi : ℤ} {d : ℚ} (hhi : 0 ≤ hi) (hd1 : d < 1) :
    randInt 0 hi d ≤ hi := by
  have hq : (0 : ℚ) ≤ (hi : ℚ) := by exact_mod_cast hhi
  have h1 : d * ((hi : ℚ) - ((0 : ℤ) : ℚ) + 1) < (hi : ℚ) + 1 := by
    push_cast
    nlinarith [mul_pos (show (0 : ℚ) < 1 - d by linarith)
      (show (0 : ℚ) < (hi : ℚ) + 1 by linarith)]
  have h2 : ⌊d * ((hi : ℚ) - ((0 : ℤ) : ℚ) + 1)⌋ < hi + 1 := by
    apply Int.floor_lt.mpr
    push_cast
    push_cast at h1
    linarith
  simp only [randInt, add_zero]
  omega

/-! ### Stripes-black effect (src/faxSim/faxSim_effect_stripes.js)

Cluster centers, the Box-Muller speckle sampling and the smear length and
angle influence only the content of the per-cluster draw scripts, never
which files are created or deleted; the model tracks the batch gate, the
per-cluster temp files and the composite hand-off exactly as written in
lines 63-195.
-/

/-- Exact rational value of the IEEE-754 double Math.PI used at
src/faxSim/faxSim_effect_stripes.js line 97. -/
def jsPI : ℚ := 884279719003555 / 281474976710656

/-- Speckle count per cluster (line 97):
pixelCount = Math.floor(Math.PI * halfW * halfH * density). The half sizes
and density do not vary across clusters, so the count is the same at every
iteration. -/
def stripesPixelCount (halfW halfH : ℤ) (density : ℚ) : ℤ :=
  ⌊jsPI * (halfW : ℚ) * (halfH : ℚ) * density⌋

/-- Temp-file path of cluster a with the given suffix (lines 138-175):
path.join(tmpDir, name + "_stripes_blob" + a + suffix). -/
def stripesBlobPath (tmpDir name : String) (a : ℕ) (sfx : String) : String :=
  tmpDir ++ "/" ++ name ++ "_stripes_blob" ++ toString a ++ sfx

/-- Loop state of applyStripesEffect: the file-system, the accumulating
composite handle and the write/delete logs. -/
structure StripesState where
  fs : Finset String
  composite : String
  wrote : List String
  deleted : List String

/-- One non-skipped iteration of the cluster loop (lines 105-191): write
the MVG script, the transparent base canvas and the speckle layer; delete
base and script; if applySmear, write the smeared layer and delete the
speckle layer; composite onto the page into the blob's _comp.png; delete
the previous composite and the layer. -/
def stripesCluster (applySmear : Bool) (tmpDir name : String) (a : ℕ)
    (st : StripesState) : StripesState :=
  let mvgP := stripesBlobPath tmpDir name a ".mvg"
  let baseP := stripesBlobPath tmpDir name a "_base.png"
  let speckP := stripesBlobPath tmpDir name a "_speck.png"
  let nextP := stripesBlobPath tmpDir name a "_comp.png"
  let fs1 := ((insert speckP (insert baseP (insert mvgP st.fs))).erase baseP).erase mvgP
  if applySmear then
    let smearP := stripesBlobPath tmpDir name a "_smear.png"
    let fs2 := (insert smearP fs1).erase speckP
    { fs := ((insert nextP fs2).erase st.composite).erase smearP
      composite := nextP
      wrote := st.wrote ++ [mvgP, baseP, speckP, smearP, nextP]
      deleted := st.deleted ++ [baseP, mvgP, speckP, st.composite, smearP] }
  else
    { fs := ((insert nextP fs1).erase st.composite).erase speckP
      composite := nextP
      wrote := st.wrote ++ [mvgP, baseP, speckP, nextP]
      deleted := st.deleted ++ [baseP, mvgP, st.composite, speckP] }

/-- The cluster loop (lines 83-192): k clusters starting at index a; a
cluster whose pixelCount is below 1 is skipped (the continue at line 98). -/
def stripesLoop (applySmear : Bool) (tmpDir name : String) (pixelCount : ℤ) :
    ℕ → ℕ → StripesState → StripesState
  | _, 0, st => st
  | a, k + 1, st =>
    stripesLoop applySmear tmpDir name pixelCount (a + 1) k
      (if pixelCount < 1 then st else stripesCluster applySmear tmpDir name a st)

/-- applyStripesEffect from src/faxSim/faxSim_effect_stripes.js lines
47-195, at the file-system level. Skips when
batchPerc < 1 && gateDraw > batchPerc; otherwise runs the cluster loop on
the composite handle (initially the input) and returns the final
composite. -/
def applyStripesEffect (fs : Finset String) (cur name tmpDir : String)
    (batchPerc : ℚ) (areasAmount : ℕ) (areaWidthPx areaHeightPx : ℚ)
    (density : ℚ) (applySmear : Bool) (gateDraw : ℚ) (w h : ℕ) : EffectResult :=
  if batchPerc < 1 ∧ gateDraw > batchPerc then skipResult fs cur w h
  else
    let halfW := ⌊areaWidthPx / 2⌋
    let halfH := ⌊areaHeightPx / 2⌋
    let pixelCount := stripesPixelCount halfW halfH density
    let st := stripesLoop applySmear tmpDir name pixelCount 0 areasAmount
      { fs := fs, composite := cur, wrote := [], deleted := [] }
    { fs := st.fs, out := st.composite, wrote := st.wrote,
      deleted := st.deleted, dims := (w, h) }

lemma stripesCluster_composite (applySmear : Bool) (tmpDir name : String)
    (a : ℕ) (st : StripesState) :
    (stripesCluster applySmear tmpDir name a st).composite =
      stripesBlobPath tmpDir name a "_comp.png" := by
  cases applySmear <;> rfl

lemma stripesCluster_not_mem (applySmear : Bool) (tmpDir name cur : String)
    (a : ℕ) (st : StripesState) (h : cur ∉ st.fs)
    (h1 : cur ≠ stripesBlobPath tmpDir name a ".mvg")
    (h2 : cur ≠ stripesBlobPath tmpDir name a "_base.png")
    (h3 : cur ≠ stripesBlobPath tmpDir name a "_speck.png")
    (h4 : cur ≠ stripesBlobPath tmpDir name a "_smear.png")
    (h5 : cur ≠ stripesBlobPath tmpDir name a "_comp.png") :
    cur ∉ (stripesCluster applySmear tmpDir name a st).fs := by
  cases applySmear <;>
    simp [stripesCluster, Finset.mem_erase, Finset.mem_insert,
      h, h1, h2, h3, h4, h5]

lemma stripesCluster_not_mem_self (applySmear : Bool) (tmpDir name cur : String)
    (a : ℕ) (st : StripesState) (hc : st.composite = cur) :
    cur ∉ (stripesCluster applySmear tmpDir name a st).fs := by
  cases applySmear <;> simp [stripesCluster, hc, Finset.mem_erase]

lemma stripesLoop_composite (applySmear : Bool) (tmpDir name : String)
    (pc : ℤ) (hpc : ¬ pc < 1) :
    ∀ (k a : ℕ) (st : StripesState), 1 ≤ k →
      (stripesLoop applySmear tmpDir name pc a k st).composite =
        stripesBlobPath tmpDir name (a + k - 1) "_comp.png" := by
  intro k
  induction k with
  | zero => intro a st hk; omega
  | succ k ih =>
    intro a st _
    cases k with
    | zero =>
      simp [stripesLoop, if_neg hpc, stripesCluster_composite]
    | succ m =>
      have hstep : stripesLoop applySmear tmpDir name pc a (m + 1 + 1) st =
          stripesLoop applySmear tmpDir name pc (a + 1) (m + 1)
            (stripesCluster applySmear tmpDir name a st) := by
        simp [stripesLoop, if_neg hpc]
      rw [hstep, ih (a + 1) _ (by omega)]
      congr 1
      omega

lemma stripesLoop_not_mem (applySmear : Bool) (tmpDir name cur : String)
    (pc : ℤ) :
    ∀ (k a : ℕ) (st : StripesState), cur ∉ st.fs →
      (∀ j, a ≤ j → j < a + k →
        cur ≠ stripesBlobPath tmpDir name j ".mvg" ∧
        cur ≠ stripesBlobPath tmpDir name j "_base.png" ∧
        cur ≠ stripesBlobPath tmpDir name j "_speck.png" ∧
        cur ≠ stripesBlobPath tmpDir name j "_smear.png" ∧
        cur ≠ stripesBlobPath tmpDir name j "_comp.png") →
      cur ∉ (stripesLoop applySmear tmpDir name pc a k st).fs := by
  intro k
  induction k with
  | zero =>
    intro a st h _
    simpa [stripesLoop] using h
  | succ k ih =>
    intro a st h hb
    simp only [stripesLoop]
    by_cases hpc : pc < 1
    · rw [if_pos hpc]
      exact ih (a + 1) st h (fun j hj1 hj2 => hb j (by omega) (by omega))
    · rw [if_neg hpc]
      refine ih (a + 1) _ ?_ (fun j hj1 hj2 => hb j (by omega) (by omega))
      obtain ⟨h1, h2, h3, h4, h5⟩ := hb a (le_refl a) (by omega)
      exact stripesCluster_not_mem applySmear tmpDir name cur a st h h1 h2 h3 h4 h5

/-! ### Claim theorems -/

/-- C1, counterexample: with the warp (resp. rotate) stage enabled in the
configuration, during the debug (first-document) run, with the stage's key
on the debug exclusion list, the stage's transform does NOT execute (and
nothing is emitted), contradicting the claim that the transform still runs
and only snapshot/log emission is suppressed. Inputs: cfg flag true,
isDebugRun true, excluded true, batch percentage 1, draw 0. -/
theorem c1_counterexample :
    (warpStage true true true 1 0).executed = false ∧
    (rotateStage true true true 1 0).executed = false := by
  constructor <;> rfl

/-- C1, amended: during the debug run, a stage whose key appears on the
debug exclusion list is skipped entirely — its transform does not execute
and no snapshot or log is emitted; outside the debug run the exclusion
list has no effect on the stage's behaviour. -/
theorem c1_amended : ∀ (c : Bool) (perc draw : ℚ),
    warpStage c true true perc draw =
      { executed := false, snapshotEmitted := false, logEmitted := false } ∧
    rotateStage c true true perc draw =
      { executed := false, snapshotEmitted := false, logEmitted := false } ∧
    (∀ e : Bool, warpStage c false e perc draw = warpStage c false false perc draw) ∧
    (∀ e : Bool, rotateStage c false e perc draw = rotateStage c false false perc draw) := by
  intro c perc draw
  refine ⟨?_, ?_, ?_, ?_⟩
  · simp [warpStage]
  · simp [rotateStage]
  · intro e
    simp [warpStage]
  · intro e
    simp [rotateStage]

/-- C9: with debugPipeline enabled, over any batch of n+1 processed
documents the per-document currentDebug flag is true for the first document
and false for every later one; equivalently the isFirstPdf flag is consumed
by the first document and flipped exactly once, never reset within the run,
so dbgSnap/dbgLog (which emit exactly when the flag is true) write a
snapshot or debug log line for the first document only. -/
theorem c9_debug_first_document_only : ∀ n : ℕ,
    batchDebugFlags true true (n + 1) = true :: List.replicate n false ∧
    (batchDebugFlags true true (n + 1)).count true = 1 ∧
    dbgSnapEmits true = true ∧ dbgLogEmits true = true ∧
    dbgSnapEmits false = false ∧ dbgLogEmits false = false := by
  intro n
  have hmain : batchDebugFlags true true (n + 1) = true :: List.replicate n false := by
    simp [batchDebugFlags, batchStep, batchDebugFlags_false]
  refine ⟨hmain, ?_, rfl, rfl, rfl, rfl⟩
  rw [hmain]
  simp [List.count_cons, List.count_replicate]

/-- C5: in the stripes-white effect, the composited overlay's alpha channel
is non-zero at a pixel exactly when both the stripe-band mask and the
blurred-then-rethresholded noise mask hold value 255 there. -/
theorem c5_overlay_alpha_iff_masks : ∀ (stripeMask blurred : ℕ → ℕ) (i : ℕ),
    overlayAlpha (finalMask stripeMask (noiseMask blurred)) i ≠ 0 ↔
      stripeMask i = 255 ∧ noiseMask blurred i = 255 := by
  intro stripeMask blurred i
  unfold overlayAlpha finalMask
  by_cases h : stripeMask i = 255 ∧ noiseMask blurred i = 255
  · simp [h]
  · simp [h]

/-- C4: for any input dimensions (w, h), any parameters and any behaviour
of the engine-decided operations (distort, crop, resize), the rotate and
warp effects always report output dimensions equal to (w, h): both argument
lists end with -gravity center -extent WxH using the dimensions read from
the input, and the skip paths leave the image untouched. -/
theorem c4_rotate_warp_preserve_dims :
    ∀ (fs : Finset String) (cur name tmpDir : String) (b b2 : Bool)
      (p mn mx gd ad p2 off fsc gd2 : ℚ) (w h : ℕ)
      (oracle oracle2 : ℕ → ℕ × ℕ → ℕ × ℕ),
    (applyRotateEffect fs cur name tmpDir b p mn mx gd ad w h oracle).dims = (w, h) ∧
    (applyWarpEffect fs cur name tmpDir b2 p2 off fsc gd2 w h oracle2).dims = (w, h) := by
  intro fs cur name tmpDir b b2 p mn mx gd ad p2 off fsc gd2 w h oracle oracle2
  constructor
  · unfold applyRotateEffect
    split <;> simp [skipResult, runDims, rotateDimOps]
  · unfold applyWarpEffect
    split <;> simp [skipResult, runDims, warpDimOps]

/-- C6: whenever floor(w*h*density) >= 1, the speckle draw script exists and
contains exactly floor(w*h*density) single-pixel point marks, for every
possible sequence of random position draws. -/
theorem c6_speckle_mark_count (w h : ℕ) (density : ℚ) (draws : ℕ → ℚ)
    (hc : 1 ≤ speckleCount w h density) :
    ∃ script, createSpeckleMVG w h density "white" draws = some script ∧
      script.countP MVGCmd.isPoint = (speckleCount w h density).toNat := by
  have hlt : ¬ speckleCount w h density < 1 := not_lt.mpr hc
  simp only [createSpeckleMVG]
  rw [if_neg hlt]
  refine ⟨_, rfl, ?_⟩
  simp only [List.countP_append, List.countP_map]
  have hall : ∀ a ∈ List.range (speckleCount w h density).toNat,
      (MVGCmd.isPoint ∘ fun i =>
        MVGCmd.point ⌊draws (2 * i) * (w : ℚ)⌋ ⌊draws (2 * i + 1) * (h : ℚ)⌋) a = true :=
    fun a _ => rfl
  rw [List.countP_eq_length.mpr hall, List.length_range]
  simp [List.countP_cons, List.countP_nil, MVGCmd.isPoint]

/-- C6 witness: a 10x10 image with density 1/100 yields exactly one point
mark. -/
theorem c6_speckle_mark_count_witness :
    1 ≤ speckleCount 10 10 (1/100) ∧
    ∃ script, createSpeckleMVG 10 10 (1/100) "white" (fun _ => 0) = some script ∧
      script.countP MVGCmd.isPoint = (speckleCount 10 10 (1/100)).toNat := by
  have h : 1 ≤ speckleCount 10 10 (1/100) := by
    norm_num [speckleCount]
  exact ⟨h, c6_speckle_mark_count 10 10 (1/100) (fun _ => 0) h⟩

/-- C7: the dropout draw script contains exactly
floor(w*h*coverage / blockSize^2) rectangle blocks whenever that count is
at least 1 (for every sequence of position draws), and whenever the count
is below 1 the effect returns the input handle unchanged with the
file-system untouched — nothing written, nothing deleted. -/
theorem c7_dropout_block_count (w h : ℕ) (amount size : ℚ)
    (fs : Finset String) (cur name tmpDir : String) (perc gateDraw : ℚ)
    (draws : ℕ → ℚ) (mvgPath : String) :
    (1 ≤ dropoutCount w h amount size →
      ∃ script, createMVG w h amount size draws = some script ∧
        script.countP MVGCmd.isRectangle = (dropoutCount w h amount size).toNat) ∧
    (dropoutCount w h amount size < 1 →
      applyDropoutEffect fs cur name tmpDir amount size perc gateDraw draws w h mvgPath =
        skipResult fs cur w h) := by
  constructor
  · intro hc
    have hlt : ¬ dropoutCount w h amount size < 1 := not_lt.mpr hc
    simp only [createMVG]
    rw [if_neg hlt]
    refine ⟨_, rfl, ?_⟩
    simp only [List.countP_append, List.countP_map]
    have hall : ∀ a ∈ List.range (dropoutCount w h amount size).toNat,
        (MVGCmd.isRectangle ∘ fun i =>
          MVGCmd.rectangle ⌊draws (2 * i) * ((w : ℚ) - (dropoutBlockSize size : ℚ))⌋
            ⌊draws (2 * i + 1) * ((h : ℚ) - (dropoutBlockSize size : ℚ))⌋
            (⌊draws (2 * i) * ((w : ℚ) - (dropoutBlockSize size : ℚ))⌋ +
              dropoutBlockSize size - 1)
            (⌊draws (2 * i + 1) * ((h : ℚ) - (dropoutBlockSize size : ℚ))⌋ +
              dropoutBlockSize size - 1)) a = true :=
      fun a _ => rfl
    rw [List.countP_eq_length.mpr hall, List.length_range]
    simp [List.countP_cons, List.countP_nil, MVGCmd.isRectangle]
  · intro hlt
    have hnone : createMVG w h amount size draws = none := by
      simp [createMVG, hlt]
    unfold applyDropoutEffect
    split
    · rfl
    · rw [hnone]

/-- C7 witness: a 100x100 image with coverage 1/100 and block size 2 yields
25 rectangle blocks; with coverage 0 the count is below 1 and the effect is
the identity on the file-system. -/
theorem c7_dropout_block_count_witness :
    (∃ script, createMVG 100 100 (1/100) 2 (fun _ => 0) = some script ∧
      script.countP MVGCmd.isRectangle = (dropoutCount 100 100 (1/100) 2).toNat) ∧
    applyDropoutEffect ∅ "in.png" "doc" "tmp" 0 2 1 0 (fun _ => 0) 100 100 "m.mvg" =
      skipResult ∅ "in.png" 100 100 := by
  constructor
  · exact (c7_dropout_block_count 100 100 (1/100) 2 ∅ "in.png" "doc" "tmp" 1 0
      (fun _ => 0) "m.mvg").1 (by norm_num [dropoutCount, dropoutBlockSize])
  · exact (c7_dropout_block_count 100 100 0 2 ∅ "in.png" "doc" "tmp" 1 0
      (fun _ => 0) "m.mvg").2 (by norm_num [dropoutCount, dropoutBlockSize])

/-- C8: in the tile-shift effect, under valid parameters (non-negative base
size, variation, offsets and jitter bound, with tilesSize + tilesVariation
fitting in both canvas dimensions), for every tile and every choice of the
five uniform draws in [0,1), the clamped paste rectangle lies entirely
within the canvas: 0 <= px, px + ts <= w, 0 <= py, py + ts <= h. -/
theorem c8_tile_paste_in_bounds
    (w h tilesSize tilesVariation tilesOffsetX tilesOffsetY offsetVariation : ℤ)
    (dE dX dY dOX dOY : ℚ)
    (hdE0 : 0 ≤ dE) (hdE1 : dE < 1) (hdX0 : 0 ≤ dX) (hdX1 : dX < 1)
    (hdY0 : 0 ≤ dY) (hdY1 : dY < 1) (hdOX0 : 0 ≤ dOX) (hdOX1 : dOX < 1)
    (hdOY0 : 0 ≤ dOY) (hdOY1 : dOY < 1)
    (hVar : 0 ≤ tilesVariation) (hOffV : 0 ≤ offsetVariation)
    (hOX : 0 ≤ tilesOffsetX) (hOY : 0 ≤ tilesOffsetY)
    (hw : tilesSize + tilesVariation ≤ w) (hh : tilesSize + tilesVariation ≤ h) :
    0 ≤ (tilePaste w h tilesSize tilesVariation tilesOffsetX tilesOffsetY
        offsetVariation dE dX dY dOX dOY).1 ∧
    (tilePaste w h tilesSize tilesVariation tilesOffsetX tilesOffsetY
        offsetVariation dE dX dY dOX dOY).1 +
      (tilePaste w h tilesSize tilesVariation tilesOffsetX tilesOffsetY
        offsetVariation dE dX dY dOX dOY).2.2 ≤ w ∧
    0 ≤ (tilePaste w h tilesSize tilesVariation tilesOffsetX tilesOffsetY
        offsetVariation dE dX dY dOX dOY).2.1 ∧
    (tilePaste w h tilesSize tilesVariation tilesOffsetX tilesOffsetY
        offsetVariation dE dX dY dOX dOY).2.1 +
      (tilePaste w h tilesSize tilesVariation tilesOffsetX tilesOffsetY
        offsetVariation dE dX dY dOX dOY).2.2 ≤ h := by
  have hextra0 : 0 ≤ randInt 0 tilesVariation dE := randInt_nonneg hVar hdE0
  have hextra1 : randInt 0 tilesVariation dE ≤ tilesVariation := randInt_le hVar hdE1
  have htsw : tilesSize + randInt 0 tilesVariation dE ≤ w := by omega
  have htsh : tilesSize + randInt 0 tilesVariation dE ≤ h := by omega
  have hx0 : 0 ≤ randInt 0 (w - (tilesSize + randInt 0 tilesVariation dE)) dX :=
    randInt_nonneg (by omega) hdX0
  have hx1 : randInt 0 (w - (tilesSize + randInt 0 tilesVariation dE)) dX ≤
      w - (tilesSize + randInt 0 tilesVariation dE) :=
    randInt_le (by omega) hdX1
  have hy0 : 0 ≤ randInt 0 (h - (tilesSize + randInt 0 tilesVariation dE)) dY :=
    randInt_nonneg (by omega) hdY0
  have hy1 : randInt 0 (h - (tilesSize + randInt 0 tilesVariation dE)) dY ≤
      h - (tilesSize + randInt 0 tilesVariation dE) :=
    randInt_le (by omega) hdY1
  have hjx0 : 0 ≤ randInt 0 offsetVariation dOX := randInt_nonneg hOffV hdOX0
  have hjy0 : 0 ≤ randInt 0 offsetVariation dOY := randInt_nonneg hOffV hdOY0
  simp only [tilePaste]
  split_ifs <;> refine ⟨by omega, by omega, by omega, by omega⟩

/-- C8 witness: a 1000x800 canvas with tilesSize 100, tilesVariation 200,
offsets 1, offsetVariation 1 and all five draws equal to 1/2. -/
theorem c8_tile_paste_in_bounds_witness :
    (0:ℚ) ≤ 1/2 ∧ (1:ℚ)/2 < 1 ∧
    0 ≤ (tilePaste 1000 800 100 200 1 1 1 (1/2) (1/2) (1/2) (1/2) (1/2)).1 ∧
    (tilePaste 1000 800 100 200 1 1 1 (1/2) (1/2) (1/2) (1/2) (1/2)).1 +
      (tilePaste 1000 800 100 200 1 1 1 (1/2) (1/2) (1/2) (1/2) (1/2)).2.2 ≤ 1000 ∧
    0 ≤ (tilePaste 1000 800 100 200 1 1 1 (1/2) (1/2) (1/2) (1/2) (1/2)).2.1 ∧
    (tilePaste 1000 800 100 200 1 1 1 (1/2) (1/2) (1/2) (1/2) (1/2)).2.1 +
      (tilePaste 1000 800 100 200 1 1 1 (1/2) (1/2) (1/2) (1/2) (1/2)).2.2 ≤ 800 := by
  have hmain := c8_tile_paste_in_bounds 1000 800 100 200 1 1 1
    (1/2) (1/2) (1/2) (1/2) (1/2)
    (by norm_num) (by norm_num) (by norm_num) (by norm_num) (by norm_num)
    (by norm_num) (by norm_num) (by norm_num) (by norm_num) (by norm_num)
    (by norm_num) (by norm_num) (by norm_num) (by norm_num)
    (by norm_num) (by norm_num)
  exact ⟨by norm_num, by norm_num, hmain.1, hmain.2.1, hmain.2.2.1, hmain.2.2.2⟩

/-- C10: for every rotate batch probability strictly between 0 and 1 there
are draws in [0,1) for which the orchestrator's rotate gate passes (so the
stage invokes the effect with that same probability) and yet the effect's
own second gate skips, returning the input handle with no file-system
change and no rotation performed — the probability is consumed twice. -/
theorem c10_rotate_double_gate (p : ℚ) (h0 : 0 < p) (h1 : p < 1) :
    ∃ d1 d2 : ℚ, 0 ≤ d1 ∧ d1 < 1 ∧ 0 ≤ d2 ∧ d2 < 1 ∧
      (rotateStage true false false p d1).executed = true ∧
      ∀ (fs : Finset String) (cur name tmpDir : String) (mn mx ad : ℚ)
        (w h : ℕ) (oracle : ℕ → ℕ × ℕ → ℕ × ℕ),
        applyRotateEffect fs cur name tmpDir true p mn mx ((1 + p)/2) ad w h oracle =
          skipResult fs cur w h := by
  refine ⟨0, (1 + p)/2, le_refl 0, by linarith, by linarith, by linarith, ?_, ?_⟩
  · simp [rotateStage, h0]
  · intro fs cur name tmpDir mn mx ad w h oracle
    unfold applyRotateEffect
    rw [if_pos (Or.inr (by linarith))]

/-- C10 witness: instantiation at p = 1/2. -/
theorem c10_rotate_double_gate_witness :
    (0:ℚ) < 1/2 ∧ (1:ℚ)/2 < 1 ∧
    ∃ d1 d2 : ℚ, 0 ≤ d1 ∧ d1 < 1 ∧ 0 ≤ d2 ∧ d2 < 1 ∧
      (rotateStage true false false (1/2) d1).executed = true ∧
      ∀ (fs : Finset String) (cur name tmpDir : String) (mn mx ad : ℚ)
        (w h : ℕ) (oracle : ℕ → ℕ × ℕ → ℕ × ℕ),
        applyRotateEffect fs cur name tmpDir true (1/2) mn mx ((1 + 1/2)/2) ad w h oracle =
          skipResult fs cur w h :=
  ⟨by norm_num, by norm_num,
    c10_rotate_double_gate (1/2) (by norm_num) (by norm_num)⟩

lemma not_mem_erase_self_erase (a m : String) (s : Finset String) :
    a ∉ (s.erase a).erase m := fun hmem =>
  Finset.not_mem_erase a s (Finset.mem_of_mem_erase hmem)

/-- C2, counterexample: the stripes-white module invoked with batch
probability 1 and a valid, non-trivial parameter set returns the very
input path as its handle, and the input file still exists when the call
returns (it is overwritten in place, never deleted) — contradicting the
claim that every effect module returns a distinct path and deletes its
input. -/
theorem c2_counterexample :
    (applyStripesWEffect {"in.png"} "in.png" 1 100 100).out = "in.png" ∧
    "in.png" ∈ (applyStripesWEffect {"in.png"} "in.png" 1 100 100).fs ∧
    (applyStripesWEffect {"in.png"} "in.png" 1 100 100).deleted = [] := by
  refine ⟨rfl, ?_, rfl⟩
  simp [applyStripesWEffect]

/-- C2, amended: every effect module other than stripes-white — rotate,
warp, dropout, white-noise, tile-shift, raster and stripes-black — invoked
with batch probability 1 and a valid parameter set yielding a non-trivial
operation (block/point/cluster-speckle count at least 1 and at least one
cluster where applicable, input path not colliding with the module's
intermediate and output names), returns a file path distinct from the
input and the input file no longer exists on return; the stripes-white
module instead overwrites the input file in place and returns the input
handle, leaving the input file on disk. -/
theorem c2_amended
    (fs : Finset String) (cur name tmpDir : String)
    (mn mx ad off fsc amount size density : ℚ)
    (gd1 gd2 gd3 gd4 gd5 gd6 : ℚ) (draws : ℕ → ℚ) (w h : ℕ)
    (oracle : ℕ → ℕ × ℕ → ℕ × ℕ) (mvg1 mvg2 : String)
    (areasAmount : ℕ) (aw ah densityB : ℚ) (smear : Bool) (gd7 : ℚ)
    (hgd1 : gd1 ≤ 1) (hgd2 : gd2 ≤ 1)
    (hrot : cur ≠ tmpDir ++ "/" ++ name ++ "_rotated.png")
    (hwarp : cur ≠ tmpDir ++ "/" ++ name ++ "_warp.png")
    (hdrop : cur ≠ tmpDir ++ "/" ++ name ++ "_rb.png")
    (hnoise : cur ≠ tmpDir ++ "/" ++ name ++ "_noiseW.png")
    (htile : cur ≠ tmpDir ++ "/" ++ name ++ "_tiles.png")
    (hraster : cur ≠ tmpDir ++ "/" ++ name ++ "_raster.png")
    (hcnt1 : 1 ≤ dropoutCount w h amount size)
    (hcnt2 : 1 ≤ speckleCount w h density)
    (hamt : 1 ≤ areasAmount)
    (hpcS : 1 ≤ stripesPixelCount ⌊aw / 2⌋ ⌊ah / 2⌋ densityB)
    (hblob : ∀ j, j < areasAmount →
      cur ≠ stripesBlobPath tmpDir name j ".mvg" ∧
      cur ≠ stripesBlobPath tmpDir name j "_base.png" ∧
      cur ≠ stripesBlobPath tmpDir name j "_speck.png" ∧
      cur ≠ stripesBlobPath tmpDir name j "_smear.png" ∧
      cur ≠ stripesBlobPath tmpDir name j "_comp.png") :
    ((applyRotateEffect fs cur name tmpDir true 1 mn mx gd1 ad w h oracle).out ≠ cur ∧
      cur ∉ (applyRotateEffect fs cur name tmpDir true 1 mn mx gd1 ad w h oracle).fs) ∧
    ((applyWarpEffect fs cur name tmpDir true 1 off fsc gd2 w h oracle).out ≠ cur ∧
      cur ∉ (applyWarpEffect fs cur name tmpDir true 1 off fsc gd2 w h oracle).fs) ∧
    ((applyDropoutEffect fs cur name tmpDir amount size 1 gd3 draws w h mvg1).out ≠ cur ∧
      cur ∉ (applyDropoutEffect fs cur name tmpDir amount size 1 gd3 draws w h mvg1).fs) ∧
    ((applyNoiseWEffect fs cur name tmpDir 1 density gd4 draws w h mvg2).out ≠ cur ∧
      cur ∉ (applyNoiseWEffect fs cur name tmpDir 1 density gd4 draws w h mvg2).fs) ∧
    ((applyTileshiftEffect fs cur name tmpDir 1 gd5 w h).out ≠ cur ∧
      cur ∉ (applyTileshiftEffect fs cur name tmpDir 1 gd5 w h).fs) ∧
    ((applyRasterEffect fs cur name tmpDir 1 gd6 w h).out ≠ cur ∧
      cur ∉ (applyRasterEffect fs cur name tmpDir 1 gd6 w h).fs) ∧
    ((applyStripesEffect fs cur name tmpDir 1 areasAmount aw ah densityB
        smear gd7 w h).out ≠ cur ∧
      cur ∉ (applyStripesEffect fs cur name tmpDir 1 areasAmount aw ah densityB
        smear gd7 w h).fs) ∧
    ((applyStripesWEffect fs cur 1 w h).out = cur ∧
      cur ∈ (applyStripesWEffect fs cur 1 w h).fs) := by
  have hone : ¬((1:ℚ) < 1 ∧ gd3 > 1) := fun hc => absurd hc.1 (lt_irrefl 1)
  have hone4 : ¬((1:ℚ) < 1 ∧ gd4 > 1) := fun hc => absurd hc.1 (lt_irrefl 1)
  have hone5 : ¬((1:ℚ) < 1 ∧ gd5 > 1) := fun hc => absurd hc.1 (lt_irrefl 1)
  have hone6 : ¬((1:ℚ) < 1 ∧ gd6 > 1) := fun hc => absurd hc.1 (lt_irrefl 1)
  have hmvgsome : ∃ s, createMVG w h amount size draws = some s := by
    simp only [createMVG]
    rw [if_neg (not_lt.mpr hcnt1)]
    exact ⟨_, rfl⟩
  have hspecksome : ∃ s, createSpeckleMVG w h density "white" draws = some s := by
    simp only [createSpeckleMVG]
    rw [if_neg (not_lt.mpr hcnt2)]
    exact ⟨_, rfl⟩
  obtain ⟨s1, hs1⟩ := hmvgsome
  obtain ⟨s2, hs2⟩ := hspecksome
  refine ⟨?_, ?_, ?_, ?_, ?_, ?_, ?_, ?_⟩
  · unfold applyRotateEffect
    rw [if_neg (by push_neg; exact ⟨by simp, hgd1⟩)]
    exact ⟨Ne.symm hrot, Finset.not_mem_erase cur _⟩
  · unfold applyWarpEffect
    rw [if_neg (by push_neg; exact ⟨by simp, hgd2⟩)]
    exact ⟨Ne.symm hwarp, not_mem_erase_self_erase _ _ _⟩
  · unfold applyDropoutEffect
    rw [if_neg hone, hs1]
    exact ⟨Ne.symm hdrop, not_mem_erase_self_erase _ _ _⟩
  · unfold applyNoiseWEffect
    rw [if_neg hone4, hs2]
    exact ⟨Ne.symm hnoise, not_mem_erase_self_erase _ _ _⟩
  · unfold applyTileshiftEffect
    rw [if_neg hone5]
    exact ⟨Ne.symm htile, Finset.not_mem_erase cur _⟩
  · unfold applyRasterEffect
    rw [if_neg hone6]
    exact ⟨Ne.symm hraster, Finset.not_mem_erase cur _⟩
  · have hone7 : ¬((1:ℚ) < 1 ∧ gd7 > 1) := fun hc => absurd hc.1 (lt_irrefl 1)
    have hpcn : ¬ stripesPixelCount ⌊aw / 2⌋ ⌊ah / 2⌋ densityB < 1 :=
      not_lt.mpr hpcS
    unfold applyStripesEffect
    rw [if_neg hone7]
    constructor
    · show (stripesLoop smear tmpDir name
          (stripesPixelCount ⌊aw / 2⌋ ⌊ah / 2⌋ densityB) 0 areasAmount
          { fs := fs, composite := cur, wrote := [], deleted := [] }).composite ≠ cur
      rw [stripesLoop_composite smear tmpDir name _ hpcn areasAmount 0 _ hamt]
      exact Ne.symm (hblob (0 + areasAmount - 1) (by omega)).2.2.2.2
    · show cur ∉ (stripesLoop smear tmpDir name
          (stripesPixelCount ⌊aw / 2⌋ ⌊ah / 2⌋ densityB) 0 areasAmount
          { fs := fs, composite := cur, wrote := [], deleted := [] }).fs
      obtain ⟨m, rfl⟩ : ∃ m, areasAmount = m + 1 := ⟨areasAmount - 1, by omega⟩
      have hstep : stripesLoop smear tmpDir name
          (stripesPixelCount ⌊aw / 2⌋ ⌊ah / 2⌋ densityB) 0 (m + 1)
          { fs := fs, composite := cur, wrote := [], deleted := [] } =
          stripesLoop smear tmpDir name
            (stripesPixelCount ⌊aw / 2⌋ ⌊ah / 2⌋ densityB) 1 m
            (stripesCluster smear tmpDir name 0
              { fs := fs, composite := cur, wrote := [], deleted := [] }) := by
        simp [stripesLoop, if_neg hpcn]
      rw [hstep]
      apply stripesLoop_not_mem
      · exact stripesCluster_not_mem_self smear tmpDir name cur 0 _ rfl
      · intro j hj1 hj2
        exact hblob j (by omega)
  · exact ⟨rfl, Finset.mem_insert_self cur fs⟩

/-- C2 witness: concrete instantiation on a 100x100 image, input handle
in.png, temp dir tmp, base name doc, coverage 1/100, block size 2, speckle
density 1/100, one stripes-black cluster of box 200x2000 at density 3/4
with smear on, all gate draws 1/2. -/
theorem c2_amended_witness :
    "in.png" ≠ "tmp" ++ "/" ++ "doc" ++ "_rotated.png" ∧
    (1:ℚ)/2 ≤ 1 ∧
    1 ≤ dropoutCount 100 100 (1/100) 2 ∧
    1 ≤ speckleCount 100 100 (1/100) ∧
    1 ≤ stripesPixelCount ⌊(200 : ℚ) / 2⌋ ⌊(2000 : ℚ) / 2⌋ (3/4) ∧
    (((applyRotateEffect ∅ "in.png" "doc" "tmp" true 1 0 0 (1/2) 0 100 100
        (fun _ d => d)).out ≠ "in.png" ∧
      "in.png" ∉ (applyRotateEffect ∅ "in.png" "doc" "tmp" true 1 0 0 (1/2) 0 100 100
        (fun _ d => d)).fs) ∧
    ((applyWarpEffect ∅ "in.png" "doc" "tmp" true 1 0 0 (1/2) 100 100
        (fun _ d => d)).out ≠ "in.png" ∧
      "in.png" ∉ (applyWarpEffect ∅ "in.png" "doc" "tmp" true 1 0 0 (1/2) 100 100
        (fun _ d => d)).fs) ∧
    ((applyDropoutEffect ∅ "in.png" "doc" "tmp" (1/100) 2 1 (1/2) (fun _ => 0) 100 100
        "m1.mvg").out ≠ "in.png" ∧
      "in.png" ∉ (applyDropoutEffect ∅ "in.png" "doc" "tmp" (1/100) 2 1 (1/2)
        (fun _ => 0) 100 100 "m1.mvg").fs) ∧
    ((applyNoiseWEffect ∅ "in.png" "doc" "tmp" 1 (1/100) (1/2) (fun _ => 0) 100 100
        "m2.mvg").out ≠ "in.png" ∧
      "in.png" ∉ (applyNoiseWEffect ∅ "in.png" "doc" "tmp" 1 (1/100) (1/2)
        (fun _ => 0) 100 100 "m2.mvg").fs) ∧
    ((applyTileshiftEffect ∅ "in.png" "doc" "tmp" 1 (1/2) 100 100).out ≠ "in.png" ∧
      "in.png" ∉ (applyTileshiftEffect ∅ "in.png" "doc" "tmp" 1 (1/2) 100 100).fs) ∧
    ((applyRasterEffect ∅ "in.png" "doc" "tmp" 1 (1/2) 100 100).out ≠ "in.png" ∧
      "in.png" ∉ (applyRasterEffect ∅ "in.png" "doc" "tmp" 1 (1/2) 100 100).fs) ∧
    ((applyStripesEffect ∅ "in.png" "doc" "tmp" 1 1 200 2000 (3/4)
        true (1/2) 100 100).out ≠ "in.png" ∧
      "in.png" ∉ (applyStripesEffect ∅ "in.png" "doc" "tmp" 1 1 200 2000 (3/4)
        true (1/2) 100 100).fs) ∧
    ((applyStripesWEffect ∅ "in.png" 1 100 100).out = "in.png" ∧
      "in.png" ∈ (applyStripesWEffect ∅ "in.png" 1 100 100).fs)) := by
  refine ⟨by decide, by norm_num, by norm_num [dropoutCount, dropoutBlockSize],
    by norm_num [speckleCount],
    by norm_num [stripesPixelCount, jsPI], ?_⟩
  exact c2_amended ∅ "in.png" "doc" "tmp" 0 0 0 0 0 (1/100) 2 (1/100)
    (1/2) (1/2) (1/2) (1/2) (1/2) (1/2) (fun _ => 0) 100 100 (fun _ d => d)
    "m1.mvg" "m2.mvg" 1 200 2000 (3/4) true (1/2) (by norm_num) (by norm_num)
    (by decide) (by decide) (by decide) (by decide) (by decide) (by decide)
    (by norm_num [dropoutCount, dropoutBlockSize]) (by norm_num [speckleCount])
    (by norm_num) (by norm_num [stripesPixelCount, jsPI])
    (by
      intro j hj
      have hj0 : j = 0 := by omega
      subst hj0
      exact ⟨by decide, by decide, by decide, by decide, by decide⟩)

/-- C3, counterexample: two effect invocations with batch probability 0
perform I/O. (i) The dropout gate skips only when the draw strictly
exceeds the probability, so at draw exactly 0 — a value Math.random() can
return — the effect applies: it returns a new path and writes/deletes
files. (ii) The stripes-white module ignores its batch probability
parameter entirely and overwrites the input file even at probability 0. -/
theorem c3_counterexample :
    ((applyDropoutEffect {"in.png"} "in.png" "doc" "tmp" (1/100) 2 0 0 (fun _ => 0)
        100 100 "m.mvg").out ≠ "in.png" ∧
      (applyDropoutEffect {"in.png"} "in.png" "doc" "tmp" (1/100) 2 0 0 (fun _ => 0)
        100 100 "m.mvg").wrote ≠ []) ∧
    (applyStripesWEffect {"in.png"} "in.png" 0 100 100).wrote = ["in.png"] := by
  have hgate : ¬((0:ℚ) < 1 ∧ (0:ℚ) > 0) := by norm_num
  have hsome : ∃ s, createMVG 100 100 (1/100) 2 (fun _ => 0) = some s := by
    simp only [createMVG]
    rw [if_neg (not_lt.mpr (by norm_num [dropoutCount, dropoutBlockSize] :
      1 ≤ dropoutCount 100 100 (1/100) 2))]
    exact ⟨_, rfl⟩
  obtain ⟨s, hs⟩ := hsome
  refine ⟨?_, rfl⟩
  unfold applyDropoutEffect
  rw [if_neg hgate, hs]
  constructor
  · show ("tmp" ++ "/" ++ "doc" ++ "_rb.png" : String) ≠ "in.png"
    decide
  · show (["m.mvg", "tmp" ++ "/" ++ "doc" ++ "_rb.png"] : List String) ≠ []
    simp

/-- C3, amended: every effect module that implements the batch gate (warp,
rotate, dropout, white-noise, tile-shift, raster and stripes-black),
invoked with batch probability 0, returns the input handle with no file
written, none deleted and the file-system unchanged, for every random draw
strictly greater than 0 (the draw 0 itself defeats the gate, which skips
only when the draw strictly exceeds the probability); the stripes-white
module performs no gating of its own and overwrites the input file even at
probability 0. -/
theorem c3_amended
    (fs : Finset String) (cur name tmpDir : String) (b b2 : Bool)
    (mn mx ad off fsc amount size density : ℚ)
    (d1 d2 d3 d4 d5 d6 : ℚ) (draws : ℕ → ℚ) (w h : ℕ)
    (oracle : ℕ → ℕ × ℕ → ℕ × ℕ) (mvg1 mvg2 : String)
    (areasAmount : ℕ) (aw ah densityB : ℚ) (smear : Bool) (d7 : ℚ)
    (h1 : 0 < d1) (h2 : 0 < d2) (h3 : 0 < d3)
    (h4 : 0 < d4) (h5 : 0 < d5) (h6 : 0 < d6) (h7 : 0 < d7) :
    applyRotateEffect fs cur name tmpDir b 0 mn mx d1 ad w h oracle =
      skipResult fs cur w h ∧
    applyWarpEffect fs cur name tmpDir b2 0 off fsc d2 w h oracle =
      skipResult fs cur w h ∧
    applyDropoutEffect fs cur name tmpDir amount size 0 d3 draws w h mvg1 =
      skipResult fs cur w h ∧
    applyNoiseWEffect fs cur name tmpDir 0 density d4 draws w h mvg2 =
      skipResult fs cur w h ∧
    applyTileshiftEffect fs cur name tmpDir 0 d5 w h = skipResult fs cur w h ∧
    applyRasterEffect fs cur name tmpDir 0 d6 w h = skipResult fs cur w h ∧
    applyStripesEffect fs cur name tmpDir 0 areasAmount aw ah densityB smear d7 w h =
      skipResult fs cur w h ∧
    (applyStripesWEffect fs cur 0 w h).wrote = [cur] := by
  refine ⟨?_, ?_, ?_, ?_, ?_, ?_, ?_, rfl⟩
  · unfold applyRotateEffect
    rw [if_pos (Or.inr h1)]
  · unfold applyWarpEffect
    rw [if_pos (Or.inr h2)]
  · unfold applyDropoutEffect
    rw [if_pos ⟨by norm_num, h3⟩]
  · unfold applyNoiseWEffect
    rw [if_pos ⟨by norm_num, h4⟩]
  · unfold applyTileshiftEffect
    rw [if_pos ⟨by norm_num, h5⟩]
  · unfold applyRasterEffect
    rw [if_pos ⟨by norm_num, h6⟩]
  · unfold applyStripesEffect
    rw [if_pos ⟨by norm_num, h7⟩]

/-- C3 witness: concrete instantiation with all gate draws equal to 1/2. -/
theorem c3_amended_witness :
    (0:ℚ) < 1/2 ∧
    (applyRotateEffect ∅ "in.png" "doc" "tmp" true 0 0 0 (1/2) 0 100 100
        (fun _ d => d) = skipResult ∅ "in.png" 100 100 ∧
      applyWarpEffect ∅ "in.png" "doc" "tmp" true 0 0 0 (1/2) 100 100
        (fun _ d => d) = skipResult ∅ "in.png" 100 100 ∧
      applyDropoutEffect ∅ "in.png" "doc" "tmp" (1/100) 2 0 (1/2) (fun _ => 0)
        100 100 "m1.mvg" = skipResult ∅ "in.png" 100 100 ∧
      applyNoiseWEffect ∅ "in.png" "doc" "tmp" 0 (1/100) (1/2) (fun _ => 0)
        100 100 "m2.mvg" = skipResult ∅ "in.png" 100 100 ∧
      applyTileshiftEffect ∅ "in.png" "doc" "tmp" 0 (1/2) 100 100 =
        skipResult ∅ "in.png" 100 100 ∧
      applyRasterEffect ∅ "in.png" "doc" "tmp" 0 (1/2) 100 100 =
        skipResult ∅ "in.png" 100 100 ∧
      applyStripesEffect ∅ "in.png" "doc" "tmp" 0 1 200 2000 (3/4) true (1/2)
        100 100 = skipResult ∅ "in.png" 100 100 ∧
      (applyStripesWEffect ∅ "in.png" 0 100 100).wrote = ["in.png"]) := by
  refine ⟨by norm_num, ?_⟩
  exact c3_amended ∅ "in.png" "doc" "tmp" true true 0 0 0 0 0 (1/100) 2 (1/100)
    (1/2) (1/2) (1/2) (1/2) (1/2) (1/2) (fun _ => 0) 100 100 (fun _ d => d)
    "m1.mvg" "m2.mvg" 1 200 2000 (3/4) true (1/2)
    (by norm_num) (by norm_num) (by norm_num)
    (by norm_num) (by norm_num) (by norm_num) (by norm_num)
